import Mathlib

/-!
Verification development for the e-commerce catalog application:
session-backed authentication (OAuth callback / logout, session store),
user repository upsert, product normalization and search-query building.

The Python code is shallowly embedded: dynamically typed Python values
become the inductive `PyVal`; MongoDB collections become lists of
documents (association lists from field names to values) threaded
explicitly through each operation; `datetime` values become integers
(epoch seconds); exceptions become `Except`; external HTTP traffic is a
parameter describing the response the provider gave.
-/

namespace ECom

/-- A Python runtime value as it occurs in this code base: `None`,
booleans, integers, `datetime` values (modelled as epoch seconds),
strings, lists and dicts (dicts with string keys, as in JSON / BSON
documents; Mongo ObjectIds are modelled as strings). -/
inductive PyVal where
  | vNone
  | vBool (b : Bool)
  | vInt (n : Int)
  | vTime (t : Int)
  | vStr (s : String)
  | vList (xs : List PyVal)
  | vDict (kvs : List (String × PyVal))
  deriving Repr

mutual
/-- Boolean (structural) equality on `PyVal`. -/
def pyBeq : PyVal → PyVal → Bool
  | .vNone, .vNone => true
  | .vBool a, .vBool b => a == b
  | .vInt a, .vInt b => a == b
  | .vTime a, .vTime b => a == b
  | .vStr a, .vStr b => a == b
  | .vList xs, .vList ys => pyBeqList xs ys
  | .vDict xs, .vDict ys => pyBeqDict xs ys
  | _, _ => false

/-- Elementwise equality of value lists. -/
def pyBeqList : List PyVal → List PyVal → Bool
  | [], [] => true
  | x :: xs, y :: ys => pyBeq x y && pyBeqList xs ys
  | _, _ => false

/-- Elementwise equality of dict entries. -/
def pyBeqDict : List (String × PyVal) → List (String × PyVal) → Bool
  | [], [] => true
  | (k, v) :: xs, (k', v') :: ys =>
      k == k' && pyBeq v v' && pyBeqDict xs ys
  | _, _ => false
end

mutual
theorem pyBeq_iff : ∀ a b : PyVal, pyBeq a b = true ↔ a = b
  | .vNone, .vNone => by simp [pyBeq]
  | .vBool a, .vBool b => by simp [pyBeq]
  | .vInt a, .vInt b => by simp [pyBeq]
  | .vTime a, .vTime b => by simp [pyBeq]
  | .vStr a, .vStr b => by simp [pyBeq]
  | .vList xs, .vList ys => by
      rw [show pyBeq (.vList xs) (.vList ys) = pyBeqList xs ys from rfl,
        pyBeqList_iff xs ys]
      exact ⟨fun h => by rw [h], fun h => by injection h⟩
  | .vDict xs, .vDict ys => by
      rw [show pyBeq (.vDict xs) (.vDict ys) = pyBeqDict xs ys from rfl,
        pyBeqDict_iff xs ys]
      exact ⟨fun h => by rw [h], fun h => by injection h⟩
  | .vNone, .vBool _ => by simp [pyBeq]
  | .vNone, .vInt _ => by simp [pyBeq]
  | .vNone, .vTime _ => by simp [pyBeq]
  | .vNone, .vStr _ => by simp [pyBeq]
  | .vNone, .vList _ => by simp [pyBeq]
  | .vNone, .vDict _ => by simp [pyBeq]
  | .vBool _, .vNone => by simp [pyBeq]
  | .vBool _, .vInt _ => by simp [pyBeq]
  | .vBool _, .vTime _ => by simp [pyBeq]
  | .vBool _, .vStr _ => by simp [pyBeq]
  | .vBool _, .vList _ => by simp [pyBeq]
  | .vBool _, .vDict _ => by simp [pyBeq]
  | .vInt _, .vNone => by simp [pyBeq]
  | .vInt _, .vBool _ => by simp [pyBeq]
  | .vInt _, .vTime _ => by simp [pyBeq]
  | .vInt _, .vStr _ => by simp [pyBeq]
  | .vInt _, .vList _ => by simp [pyBeq]
  | .vInt _, .vDict _ => by simp [pyBeq]
  | .vTime _, .vNone => by simp [pyBeq]
  | .vTime _, .vBool _ => by simp [pyBeq]
  | .vTime _, .vInt _ => by simp [pyBeq]
  | .vTime _, .vStr _ => by simp [pyBeq]
  | .vTime _, .vList _ => by simp [pyBeq]
  | .vTime _, .vDict _ => by simp [pyBeq]
  | .vStr _, .vNone => by simp [pyBeq]
  | .vStr _, .vBool _ => by simp [pyBeq]
  | .vStr _, .vInt _ => by simp [pyBeq]
  | .vStr _, .vTime _ => by simp [pyBeq]
  | .vStr _, .vList _ => by simp [pyBeq]
  | .vStr _, .vDict _ => by simp [pyBeq]
  | .vList _, .vNone => by simp [pyBeq]
  | .vList _, .vBool _ => by simp [pyBeq]
  | .vList _, .vInt _ => by simp [pyBeq]
  | .vList _, .vTime _ => by simp [pyBeq]
  | .vList _, .vStr _ => by simp [pyBeq]
  | .vList _, .vDict _ => by simp [pyBeq]
  | .vDict _, .vNone => by simp [pyBeq]
  | .vDict _, .vBool _ => by simp [pyBeq]
  | .vDict _, .vInt _ => by simp [pyBeq]
  | .vDict _, .vTime _ => by simp [pyBeq]
  | .vDict _, .vStr _ => by simp [pyBeq]
  | .vDict _, .vList _ => by simp [pyBeq]

theorem pyBeqList_iff : ∀ xs ys : List PyVal, pyBeqList xs ys = true ↔ xs = ys
  | [], [] => by simp [pyBeqList]
  | [], _ :: _ => by simp [pyBeqList]
  | _ :: _, [] => by simp [pyBeqList]
  | x :: xs, y :: ys => by
      rw [show pyBeqList (x :: xs) (y :: ys) =
        (pyBeq x y && pyBeqList xs ys) from rfl]
      rw [Bool.and_eq_true, pyBeq_iff x y, pyBeqList_iff xs ys]
      constructor
      · rintro ⟨rfl, rfl⟩
        rfl
      · intro h
        injection h with h1 h2
        exact ⟨h1, h2⟩

theorem pyBeqDict_iff :
    ∀ xs ys : List (String × PyVal), pyBeqDict xs ys = true ↔ xs = ys
  | [], [] => by simp [pyBeqDict]
  | [], _ :: _ => by simp [pyBeqDict]
  | _ :: _, [] => by simp [pyBeqDict]
  | (k, v) :: xs, (k', v') :: ys => by
      rw [show pyBeqDict ((k, v) :: xs) ((k', v') :: ys) =
        (k == k' && pyBeq v v' && pyBeqDict xs ys) from rfl]
      rw [Bool.and_eq_true, Bool.and_eq_true, beq_iff_eq, pyBeq_iff v v',
        pyBeqDict_iff xs ys]
      constructor
      · rintro ⟨⟨rfl, rfl⟩, rfl⟩
        rfl
      · intro h
        injection h with h1 h2
        exact ⟨⟨congrArg Prod.fst h1, congrArg Prod.snd h1⟩, h2⟩
end

instance : DecidableEq PyVal := fun a b => decidable_of_iff _ (pyBeq_iff a b)

/-- Python truthiness: `None`, `False`, `0`, `""`, `[]` and `\x7b\x7d` are
falsy; `datetime` values are always truthy. -/
def truthy : PyVal → Bool
  | .vNone => false
  | .vBool b => b
  | .vInt n => n != 0
  | .vTime _ => true
  | .vStr s => s != ""
  | .vList xs => !xs.isEmpty
  | .vDict kvs => !kvs.isEmpty

/-- Python `x or y`: `x` if truthy, else `y`. -/
def pyOr (x y : PyVal) : PyVal := if truthy x then x else y

/-- A document / dict: association list from string keys to values.
Keys are unique in every document the code builds. -/
abbrev Doc := List (String × PyVal)

/-- A Mongo collection: a list of documents in insertion order. -/
abbrev Store := List Doc

/-- `d.get(k)`: value at `k`, or `None` when the key is absent. -/
def dget (d : Doc) (k : String) : PyVal :=
  match d.lookup k with
  | some v => v
  | none => .vNone

/-- `k in d`. -/
def hasKey (d : Doc) (k : String) : Bool := (d.lookup k).isSome

/-- `d[k] = v`: replace the value at the first occurrence of `k`,
or append `(k, v)` when `k` is absent (CPython dicts keep the position
of existing keys and append new keys at the end). -/
def assocSet (d : Doc) (k : String) (v : PyVal) : Doc :=
  match d with
  | [] => [(k, v)]
  | (k', v') :: rest =>
      if k' = k then (k, v) :: rest else (k', v') :: assocSet rest k v

/-- `d.update(us)` / Mongo `$set`: apply each binding in order. -/
def setFields (d : Doc) (us : Doc) : Doc :=
  us.foldl (fun acc kv => assocSet acc kv.1 kv.2) d

/-- `d.pop(k, None)`, the resulting dict (the key removed). -/
def popKey (d : Doc) (k : String) : Doc := d.filter (fun kv => kv.1 ≠ k)

mutual
/-- Python `repr` for the values above (used through `str` on
non-string values). Container rendering follows CPython. -/
def pyRepr : PyVal → String
  | .vNone => "None"
  | .vBool true => "True"
  | .vBool false => "False"
  | .vInt n => toString n
  | .vTime t => toString t
  | .vStr s => "'" ++ s ++ "'"
  | .vList xs => "[" ++ pyReprList xs ++ "]"
  | .vDict kvs => "\x7b" ++ pyReprDict kvs ++ "\x7d"

/-- Comma-separated `repr`s of list elements. -/
def pyReprList : List PyVal → String
  | [] => ""
  | [x] => pyRepr x
  | x :: y :: rest => pyRepr x ++ ", " ++ pyReprList (y :: rest)

/-- Comma-separated `'key': repr` pairs of dict entries. -/
def pyReprDict : List (String × PyVal) → String
  | [] => ""
  | [(k, v)] => "'" ++ k ++ "': " ++ pyRepr v
  | (k, v) :: e :: rest =>
      "'" ++ k ++ "': " ++ pyRepr v ++ ", " ++ pyReprDict (e :: rest)
end

/-- Python `str`: identity on strings, `repr` otherwise. -/
def pyStr : PyVal → String
  | .vStr s => s
  | v => pyRepr v

/-- Exceptions raised by the embedded code. -/
inductive PyErr where
  | valueError (msg : String)
  | keyError (k : String)
  | typeError
  deriving Repr, DecidableEq

/-- Field filter `\x7bk: v\x7d` matches a document: the field is present
and equal to `v`. -/
def docMatches (d : Doc) (k : String) (v : PyVal) : Bool :=
  match d.lookup k with
  | some w => pyBeq w v
  | none => false

/-- Mongo `find_one(\x7bk: v\x7d)`: first document whose field `k` equals `v`. -/
def findOne (st : Store) (k : String) (v : PyVal) : Option Doc :=
  st.find? (fun d => docMatches d k v)

/-- Mongo `delete_one(\x7bk: v\x7d)`: remove the first matching document. -/
def deleteOne (st : Store) (k : String) (v : PyVal) : Store :=
  st.eraseP (fun d => docMatches d k v)

/-- Mongo `update_one(\x7bk: v\x7d, \x7b'$set': us\x7d)`: `$set` on the first
matching document. -/
def updateOne (st : Store) (k : String) (v : PyVal) (us : Doc) : Store :=
  match st with
  | [] => []
  | d :: rest =>
      if docMatches d k v then setFields d us :: rest
      else d :: updateOne rest k v us

/-- `_doc_to_dict` (mongo.py): `None` for a falsy document, otherwise
pop `_id` and add `id` as its string form (or `None`). -/
def doc_to_dict (d : Doc) : Option Doc :=
  if d.isEmpty then none
  else
    let idv := d.lookup "_id"
    let out := popKey d "_id"
    some (out ++ [("id",
      match idv with
      | some .vNone => .vNone
      | some v => .vStr (pyStr v)
      | none => .vNone)])

/-! ## Session store (mongo.py: create_session_with_meta / get_session /
delete_session).  A session id is generated by `uuid4` in the code; here
the fresh id `sid` is a parameter.  `now` is `datetime.utcnow()`. -/

/-- `create_session_with_meta` (mongo.py): build the session document and
insert it; returns the session id and the new collection state. -/
def create_session_with_meta (st : Store) (sid : String) (now : Int)
    (user_id : PyVal) (meta : Option Doc := none)
    (ttl_seconds : Int := 3600 * 2) : String × Store :=
  let session : Doc :=
    [("_id", .vStr sid),
     ("user_id", .vStr (pyStr user_id)),
     ("created_at", .vTime now),
     ("expires_at", .vTime (now + ttl_seconds)),
     ("meta", .vDict (meta.getD []))]
  (sid, st ++ [session])

/-- `get_session` (mongo.py): fetch by `_id`; when `expires_at` is truthy
and earlier than now, delete the document and report absent; comparing a
truthy non-datetime `expires_at` with `datetime.utcnow()` raises
`TypeError`.  Returns the looked-up document (or `None`) and the
resulting collection state. -/
def get_session (st : Store) (session_id : String) (now : Int) :
    Except PyErr (Option Doc × Store) :=
  match findOne st "_id" (.vStr session_id) with
  | none => .ok (none, st)
  | some doc =>
      let e := dget doc "expires_at"
      if truthy e then
        match e with
        | .vTime t =>
            if t < now then
              .ok (none, deleteOne st "_id" (.vStr session_id))
            else .ok (doc_to_dict doc, st)
        | _ => .error .typeError
      else .ok (doc_to_dict doc, st)

/-- `delete_session` (mongo.py): `delete_one` by `_id`; returns the
deleted count and the resulting collection state. -/
def delete_session (st : Store) (session_id : String) : Nat × Store :=
  ((if (findOne st "_id" (.vStr session_id)).isSome then 1 else 0),
   deleteOne st "_id" (.vStr session_id))

/-! ## User repository (mongo.py: get_or_create_user_from_info,
update_user_by_dbid). -/

/-- Keys the update branch of `get_or_create_user_from_info` may write:
identity fields plus the two login timestamps. -/
def identityUpdateKeys : List String :=
  ["google_id", "email", "email_verified", "name", "given_name",
   "family_name", "picture", "locale", "updated_at", "last_login_at"]

/-- The `identity_data` dict of `get_or_create_user_from_info`:
identity fields taken from the provider's `user_info`, with `None`
values removed ('role' is intentionally omitted). -/
def identityData (user_info : Doc) (gid : String) : Doc :=
  ([("google_id", .vStr gid),
    ("email", dget user_info "email"),
    ("email_verified", .vBool (truthy (dget user_info "email_verified"))),
    ("name", dget user_info "name"),
    ("given_name", dget user_info "given_name"),
    ("family_name", dget user_info "family_name"),
    ("picture", dget user_info "picture"),
    ("locale", dget user_info "locale")]).filter
      (fun kv => kv.2 ≠ .vNone)

/-- `get_or_create_user_from_info` (mongo.py), the synchronous body:
requires a truthy `sub` (or `id`) from the provider; updates identity
fields and login timestamps on an existing user, or inserts a new user
document with a `role` assigned only at creation.  `newId` is the
ObjectId Mongo assigns on insert.  Returns the `_doc_to_dict` of the
resulting user and the new collection state. -/
def get_or_create_user_from_info (st : Store) (user_info : Doc)
    (now : Int) (newId : PyVal) : Except PyErr (Option Doc × Store) :=
  let gidv := pyOr (dget user_info "sub") (dget user_info "id")
  if truthy gidv then
    let gid := pyStr gidv
    let identity_data := identityData user_info gid
    match findOne st "google_id" (.vStr gid) with
    | some existing_user =>
        match existing_user.lookup "_id" with
        | none => .error (.keyError "_id")
        | some idv =>
            let upd := identity_data ++
              [("updated_at", .vTime now), ("last_login_at", .vTime now)]
            let st' := updateOne st "_id" idv upd
            let merged := setFields existing_user upd
            .ok (doc_to_dict merged, st')
    | none =>
        let new_user_doc := setFields identity_data
          [("role", pyOr (dget user_info "role") (.vStr "user")),
           ("created_at", .vTime now),
           ("updated_at", .vTime now),
           ("last_login_at", .vTime now)]
        let inserted := setFields new_user_doc [("_id", newId)]
        .ok (doc_to_dict inserted, st ++ [inserted])
  else .error (.valueError "google_id (sub) is required from Identity Provider")

/-- A string accepted by the `ObjectId` constructor: 24 hex digits. -/
def isObjectIdStr (s : String) : Bool :=
  s.length = 24 && s.data.all (fun c =>
    c.isDigit || ('a' ≤ c && c ≤ 'f') || ('A' ≤ c && c ≤ 'F'))

/-- `update_user_by_dbid` (mongo.py): when `user_id` is a string the
`ObjectId` constructor accepts, `$set` the updates on the user matched
by `_id` (ObjectIds are modelled as their hex strings); when the
constructor raises, fall back to matching the stored `id` field against
the raw value; afterwards re-fetch and return the document through
`_doc_to_dict`, together with the new collection state. -/
def update_user_by_dbid (st : Store) (user_id : PyVal) (updates : Doc) :
    Option Doc × Store :=
  let key :=
    match user_id with
    | .vStr s => if isObjectIdStr s then "_id" else "id"
    | _ => "id"
  let st' := updateOne st key user_id updates
  match findOne st' key user_id with
  | some d => (doc_to_dict d, st')
  | none => (none, st')

/-! ## Product normalization (products.py: _parse_tags /
_normalize_product). -/

/-- `_parse_tags` (products.py): split a comma-separated string, strip
whitespace, drop empties, deduplicate.  CPython deduplicates through
`list(set(...))`, whose order is unspecified; the model keeps one
occurrence of each tag. -/
def _parse_tags (tags_str : String) : List String :=
  if tags_str = "" then []
  else
    (((tags_str.splitOn ",").map String.trim).filter (fun t => t ≠ "")).dedup

/-- `_normalize_product` (products.py): map legacy document keys to the
canonical frontend shape; a falsy document is returned unchanged. -/
def _normalize_product (doc : Doc) : Doc :=
  if doc.isEmpty then doc
  else
    let name := pyOr (dget doc "name") (pyOr (dget doc "titulo")
      (pyOr (dget doc "nombre") (.vStr "Sin Nombre")))
    let description := pyOr (dget doc "description")
      (pyOr (dget doc "descripcion") (.vStr ""))
    let price := pyOr (dget doc "price") (pyOr (dget doc "precio") (.vInt 0))
    let image := dget doc "image"
    let images := pyOr (dget doc "images") (.vList [])
    let (image, images) :=
      if !truthy image then
        match dget doc "imagenes" with
        | .vDict m => (dget m "portada", pyOr (dget m "lista_completa") images)
        | _ => (image, images)
      else (image, images)
    let images :=
      if !truthy images then
        match dget doc "imagenes" with
        | .vList l => .vList l
        | _ => images
      else images
    let tags := pyOr (dget doc "tags") (.vList [])
    let tags :=
      match tags with
      | .vStr s => .vList ((_parse_tags s).map .vStr)
      | t => t
    [("id", pyOr (dget doc "id")
        (.vStr (pyStr (pyOr (dget doc "_id") (.vStr ""))))),
     ("name", name),
     ("description", description),
     ("price", price),
     ("image", image),
     ("images", pyOr images (.vList [])),
     ("tags", tags),
     ("category", dget doc "category")]

/-! ## Search-query construction (mongo.py: _build_search_query), with a
model of `re.escape` and of the fragment of regular expressions needed
to read the escaped pattern. -/

/-- The characters CPython's `re.escape` (3.7+) prefixes with a
backslash. -/
def reEscapeSpecial : List Char :=
  ['(', ')', '[', ']', '\x7b', '\x7d', '?', '*', '+', '-', '|', '^', '$',
   '\\', '.', '&', '~', '#', ' ', '\t', '\n', '\r', '\x0b', '\x0c']

/-- `re.escape`: prefix each special character with a backslash. -/
def reEscape (s : String) : String :=
  ⟨s.data.flatMap (fun c =>
    if c ∈ reEscapeSpecial then ['\\', c] else [c])⟩

/-- A single-character regex matcher: the fragment of regex syntax the
escaped patterns fall in (a literal character, or `.`). -/
inductive RegexTok where
  | lit (c : Char)
  | anyChar
  deriving Repr, DecidableEq

/-- Characters that carry regex syntax when unescaped and are outside
the single-character fragment (quantifiers, groups, classes, anchors,
alternation, and a bare trailing-less backslash handled separately). -/
def regexMetaOutside : List Char :=
  ['^', '$', '*', '+', '?', '(', ')', '[', '\x7b', '|']

/-- Parse a pattern into the single-character fragment: `\x` is the
literal `x` when `x` is not alphanumeric (alphanumeric escapes such as
`\d` are class/anchor escapes, outside the fragment), `.` matches any
character, the unescaped metacharacters above are outside the fragment,
everything else is a literal. -/
def parseRegex : List Char → Option (List RegexTok)
  | [] => some []
  | c :: rest =>
      if c = '\\' then
        match rest with
        | [] => none
        | d :: rest2 =>
            if d.isAlphanum then none
            else (parseRegex rest2).map (RegexTok.lit d :: ·)
      else if c = '.' then (parseRegex rest).map (RegexTok.anyChar :: ·)
      else if c ∈ regexMetaOutside then none
      else (parseRegex rest).map (RegexTok.lit c :: ·)

/-- One token against one character; `ci` is the `i` (case-insensitive)
option, under which characters compare lower-cased; `.` does not match a
newline. -/
def tokMatches (ci : Bool) : RegexTok → Char → Bool
  | .lit c, x => if ci then x.toLower = c.toLower else x = c
  | .anyChar, x => x ≠ '\n'

/-- A token sequence against a window of the same length, tokenwise. -/
def windowMatch (ci : Bool) : List RegexTok → List Char → Bool
  | [], [] => true
  | t :: ts, x :: xs => tokMatches ci t x && windowMatch ci ts xs
  | _, _ => false

/-- Unanchored regex search (Mongo `$regex` semantics): some contiguous
window of the subject matches the token sequence. -/
def regexSearch (ci : Bool) (toks : List RegexTok) (s : List Char) : Prop :=
  ∃ w, w <:+: s ∧ windowMatch ci toks w

/-- The filter `_build_search_query` returns: match-all, or an `$or` of
case-insensitive `$regex` conditions over the given fields. -/
inductive MongoQuery where
  | matchAll
  | orRegex (fields : List String) (pattern : String) (options : String)
  deriving Repr, DecidableEq

/-- `_build_search_query` (mongo.py): empty query matches everything;
otherwise a case-insensitive escaped-substring `$or` over name,
description, tags and ia_tags.tags. -/
def _build_search_query (query : String) : MongoQuery :=
  if query = "" then .matchAll
  else
    .orRegex ["name", "description", "tags", "ia_tags.tags"]
      (reEscape query) "i"

/-! ## HTTP layer (auth.py: google_callback / google_logout,
users.py: update_me).  Outbound HTTP traffic is a parameter: an
`HttpResult` is what one request to a provider endpoint produced
(a status + JSON body, or a transport error). -/

/-- An `HTTPException`: status code and detail. -/
structure HttpError where
  status : Nat
  detail : String
  deriving Repr, DecidableEq

/-- Outcome of one outbound HTTP request: a response (status + JSON
body) or a transport-level failure (`httpx.HTTPError`). -/
inductive HttpResult where
  | resp (status : Nat) (body : Doc)
  | netErr
  deriving Repr, DecidableEq

/-- Arguments of `response.set_cookie`. -/
structure SetCookie where
  key : String
  value : String
  httponly : Bool
  samesite : String
  secure : Bool
  maxAge : Int
  deriving Repr, DecidableEq

/-- The successful callback response: a redirect carrying a session
cookie. -/
structure CallbackResponse where
  redirectTo : String
  cookie : SetCookie
  deriving Repr, DecidableEq

/-- Result of one `google_callback` run, with an execution trace: how
many times each provider endpoint was requested, whether user
persistence and session creation were reached, and the resulting
store states. -/
structure CallbackOutcome where
  result : Except HttpError CallbackResponse
  tokenCalls : Nat
  userinfoCalls : Nat
  persistUserCalled : Bool
  sessionCreated : Bool
  userStore : Store
  sessionStore : Store
  deriving Repr

/-- `os.environ.get('COOKIE_SECURE') in ('1', 'true', 'True')`. -/
def cookieSecureEnvSet (v : Option String) : Bool :=
  v = some "1" || v = some "true" || v = some "True"

/-- `google_callback` (auth.py): exchange the authorization code at the
token endpoint, fetch the userinfo profile, persist the user and create
a session, setting the session cookie on a redirect response.  `code` is
the `code` query parameter; `tokenR` / `userR` are what the two provider
requests would produce; `newUserId` and `sid` are the ids Mongo / uuid4
would generate; TLS-verification configuration only affects how the
requests are made and is absorbed into `tokenR` / `userR`. -/
def google_callback (code : Option String) (cookieSecureEnv : Option String)
    (scheme : String) (tokenR userR : HttpResult)
    (userStore sessionStore : Store) (now : Int) (newUserId : PyVal)
    (sid : String) : CallbackOutcome :=
  match code with
  | none =>
      ⟨.error ⟨400, "Missing code in callback"⟩, 0, 0, false, false,
        userStore, sessionStore⟩
  | some c =>
      if c = "" then
        ⟨.error ⟨400, "Missing code in callback"⟩, 0, 0, false, false,
          userStore, sessionStore⟩
      else
        match tokenR with
        | .netErr =>
            ⟨.error ⟨502, "HTTP error while contacting Google APIs"⟩, 1, 0,
              false, false, userStore, sessionStore⟩
        | .resp ts tb =>
            if ts ≠ 200 then
              ⟨.error ⟨500, "Failed to fetch token from Google"⟩, 1, 0,
                false, false, userStore, sessionStore⟩
            else if !truthy (dget tb "access_token") then
              ⟨.error ⟨500, "No access token returned"⟩, 1, 0,
                false, false, userStore, sessionStore⟩
            else
              match userR with
              | .netErr =>
                  ⟨.error ⟨502, "HTTP error while contacting Google APIs"⟩,
                    1, 1, false, false, userStore, sessionStore⟩
              | .resp us ub =>
                  if us ≠ 200 then
                    ⟨.error ⟨500, "Failed to fetch user info"⟩, 1, 1,
                      false, false, userStore, sessionStore⟩
                  else
                    match get_or_create_user_from_info userStore ub now
                        newUserId with
                    | .error _ =>
                        ⟨.error ⟨500, "User persistence error"⟩, 1, 1,
                          true, false, userStore, sessionStore⟩
                    | .ok (userOpt, ust') =>
                        match userOpt with
                        | none =>
                            ⟨.error ⟨500, "Failed creating session"⟩, 1, 1,
                              true, false, ust', sessionStore⟩
                        | some user =>
                            let meta : Doc :=
                              [("access_token", dget tb "access_token"),
                               ("refresh_token",
                                 if hasKey tb "refresh_token" then
                                   dget tb "refresh_token"
                                 else .vNone)]
                            let r := create_session_with_meta sessionStore
                              sid now (dget user "id") (some meta)
                            let cookie_secure :=
                              cookieSecureEnvSet cookieSecureEnv ||
                                scheme = "https"
                            ⟨.ok ⟨"/login/success",
                                ⟨"session_id", r.1, true, "lax",
                                  cookie_secure, 3600 * 2⟩⟩,
                              1, 1, true, true, ust', r.2⟩

/-- Outcome of the best-effort token-revocation request on logout: a
provider status code, or a raised exception. -/
inductive RevokeOutcome where
  | ok (status : Nat)
  | exn
  deriving Repr, DecidableEq

/-- Result of one `google_logout` run: the redirect, whether the cookie
was removed, whether `delete_session` and the revocation request were
reached, and the resulting session store. -/
structure LogoutResult where
  redirectTo : String
  cookieDeleted : Bool
  deleteSessionCalled : Bool
  revokeAttempted : Bool
  sessionStore : Store
  deriving Repr, DecidableEq

/-- `google_logout` (auth.py): build the redirect; when a truthy
`session_id` cookie is present, look the session up, best-effort revoke
a stored token (response and exceptions ignored), delete the server-side
session (exceptions ignored), and always delete the cookie.  `revoke` is
what the revocation request would produce; it is never consulted. -/
def google_logout (st : Store) (cookie_sid : Option String) (now : Int)
    (revoke : RevokeOutcome) : LogoutResult :=
  match cookie_sid with
  | none => ⟨"/login", true, false, false, st⟩
  | some sid =>
      if sid = "" then ⟨"/login", true, false, false, st⟩
      else
        let r :=
          match get_session st sid now with
          | .ok (o, st') => (o, st')
          | .error _ => (none, st)
        let revokeAttempted :=
          match r.1 with
          | none => false
          | some sess =>
              match pyOr (dget sess "meta") (.vDict []) with
              | .vDict m =>
                  truthy (pyOr (dget m "refresh_token")
                    (dget m "access_token"))
              | _ => false
        let d := delete_session r.2 sid
        ⟨"/login", true, true, revokeAttempted, d.2⟩

/-- Result of one `update_me` run: the HTTP outcome, the `$set` payload
actually sent to the database (`none` when no write happened), and the
resulting users store. -/
structure UpdateMeOutcome where
  result : Except HttpError Doc
  writtenUpdates : Option Doc
  userStore : Store
  deriving Repr

/-- `update_me` (users.py, `PATCH /users/me`): keep only non-null `name`
/ `picture` keys of the JSON payload, stamp `updated_at`, and `$set`
them on the authenticated user's document.  `currentUser` is the
middleware-resolved user (`none`: not authenticated), `payload` the
parsed JSON body (`none`: unparsable). -/
def update_me (st : Store) (currentUser : Option Doc) (payload : Option Doc)
    (now : Int) : UpdateMeOutcome :=
  match currentUser with
  | none => ⟨.error ⟨401, "Not authenticated"⟩, none, st⟩
  | some current =>
      match payload with
      | none => ⟨.error ⟨400, "Invalid JSON payload"⟩, none, st⟩
      | some p =>
          let updates := p.filter
            (fun kv => (kv.1 = "name" || kv.1 = "picture") && kv.2 ≠ .vNone)
          if updates.isEmpty then
            ⟨.error ⟨400, "No updatable fields provided"⟩, none, st⟩
          else
            let updates := assocSet updates "updated_at" (.vTime now)
            let user_id := pyOr (dget current "id") (dget current "_id")
            if !truthy user_id then
              ⟨.error ⟨500, "User id not available"⟩, none, st⟩
            else
              let r := update_user_by_dbid st user_id updates
              match r.1 with
              | none => ⟨.error ⟨500, "Failed to update user"⟩,
                  some updates, r.2⟩
              | some u => ⟨.ok u, some updates, r.2⟩

/-! ## Frame lemmas about documents and stores. -/

theorem assocSet_lookup_ne (d : Doc) (k : String) (v : PyVal) (key : String)
    (h : key ≠ k) : (assocSet d k v).lookup key = d.lookup key := by
  induction d with
  | nil => simp [assocSet, List.lookup, beq_false_of_ne h]
  | cons kv rest ih =>
      obtain ⟨k', v'⟩ := kv
      by_cases hk : k' = k
      · subst hk
        simp [assocSet, List.lookup, beq_false_of_ne h, beq_false_of_ne (Ne.symm h)]
      · simp only [assocSet, if_neg hk]
        by_cases hkey : k' = key
        · subst hkey
          simp [List.lookup]
        · simp [List.lookup, beq_false_of_ne (Ne.symm hkey), ih]

theorem setFields_lookup_not_mem (us : Doc) (key : String)
    (h : ∀ kv ∈ us, kv.1 ≠ key) (d : Doc) :
    (setFields d us).lookup key = d.lookup key := by
  induction us generalizing d with
  | nil => rfl
  | cons kv rest ih =>
      have h1 : kv.1 ≠ key := h kv (List.mem_cons_self kv rest)
      have h2 : ∀ kv' ∈ rest, kv'.1 ≠ key :=
        fun kv' hm => h kv' (List.mem_cons_of_mem kv hm)
      show (setFields (assocSet d kv.1 kv.2) rest).lookup key = _
      rw [ih h2, assocSet_lookup_ne _ _ _ _ (Ne.symm h1)]

theorem mem_assocSet (d : Doc) (k : String) (v : PyVal) (kv : String × PyVal) :
    kv ∈ assocSet d k v → kv = (k, v) ∨ kv ∈ d := by
  induction d with
  | nil => intro h; simpa [assocSet] using h
  | cons e rest ih =>
      intro h
      obtain ⟨k', v'⟩ := e
      by_cases hk : k' = k
      · rw [show assocSet ((k', v') :: rest) k v = (k, v) :: rest from by
          simp [assocSet, hk]] at h
        rcases List.mem_cons.mp h with h | h
        · exact Or.inl h
        · exact Or.inr (List.mem_cons_of_mem _ h)
      · rw [show assocSet ((k', v') :: rest) k v =
            (k', v') :: assocSet rest k v from by simp [assocSet, hk]] at h
        rcases List.mem_cons.mp h with h | h
        · exact Or.inr (by simp [h])
        · rcases ih h with h' | h'
          · exact Or.inl h'
          · exact Or.inr (List.mem_cons_of_mem _ h')

theorem updateOne_length (st : Store) (k : String) (v : PyVal) (us : Doc) :
    (updateOne st k v us).length = st.length := by
  induction st with
  | nil => rfl
  | cons d rest ih =>
      unfold updateOne
      by_cases hm : docMatches d k v = true
      · simp [hm]
      · simp [hm, ih]

theorem updateOne_lookup_frame (key : String) (us : Doc)
    (h : ∀ kv ∈ us, kv.1 ≠ key) (st : Store) (k : String) (v : PyVal) :
    ∀ i : Nat, ((updateOne st k v us)[i]?).map (fun d => d.lookup key) =
      (st[i]?).map (fun d => d.lookup key) := by
  induction st with
  | nil => intro i; rfl
  | cons d rest ih =>
      intro i
      unfold updateOne
      by_cases hm : docMatches d k v = true
      · cases i with
        | zero => simp [hm, setFields_lookup_not_mem us key h]
        | succ j => simp [hm]
      · cases i with
        | zero => simp [hm]
        | succ j => simpa [hm] using ih j

/-! ## Claims. -/

/-- C7: for every user id, metadata and ttl, `create_session_with_meta`
stores a session document whose `user_id` is the stringified input user
id, whose `meta` is the given metadata (or the empty dict when none is
given), and whose `expires_at` equals its `created_at` plus
`ttl_seconds` — 7200 s (2 h) by default — and it returns the new
session's id. -/
theorem c7_create_session_with_meta_spec (st : Store) (sid : String)
    (now : Int) (uid : PyVal) (meta : Option Doc) (ttl : Int) :
    (create_session_with_meta st sid now uid meta ttl).1 = sid ∧
    (∃ d : Doc, (create_session_with_meta st sid now uid meta ttl).2 =
        st ++ [d] ∧
      dget d "_id" = .vStr sid ∧
      dget d "user_id" = .vStr (pyStr uid) ∧
      dget d "meta" = .vDict (meta.getD []) ∧
      (∃ c e : Int, dget d "created_at" = .vTime c ∧
        dget d "expires_at" = .vTime e ∧ e = c + ttl)) ∧
    create_session_with_meta st sid now uid meta =
      create_session_with_meta st sid now uid meta (3600 * 2) := by
  refine ⟨rfl, ⟨_, rfl, rfl, rfl, rfl, now, now + ttl, rfl, rfl, rfl⟩, rfl⟩

/-- The shapes of stored `tags` values covered by C4: a string, a list,
or absent (`doc.get('tags')` returns `None`). -/
def TagsStrListAbsent (v : PyVal) : Prop :=
  (∃ s, v = .vStr s) ∨ (∃ l, v = .vList l) ∨ v = .vNone

/-- The `tags` entry `_normalize_product` emits, in terms of the input
document. -/
theorem normalize_tags_lookup (doc : Doc) (hne : doc.isEmpty = false) :
    List.lookup "tags" (_normalize_product doc) =
      some (match pyOr (dget doc "tags") (.vList []) with
            | .vStr s => .vList ((_parse_tags s).map .vStr)
            | t => t) := by
  unfold _normalize_product
  rw [hne]
  rfl

/-- C4: for every non-empty product document whose stored `tags` value
is a string, a list, or absent, `_normalize_product` returns a document
whose `tags` field is a list. -/
theorem c4_normalize_tags_is_list (doc : Doc) (hne : doc.isEmpty = false)
    (h : TagsStrListAbsent (dget doc "tags")) :
    ∃ l, List.lookup "tags" (_normalize_product doc) =
      some (.vList l) := by
  rw [normalize_tags_lookup doc hne]
  rcases h with ⟨s, hs⟩ | ⟨l, hl⟩ | hn
  · rw [hs]
    by_cases hemp : s = ""
    · subst hemp
      exact ⟨[], rfl⟩
    · refine ⟨(_parse_tags s).map .vStr, ?_⟩
      simp [pyOr, truthy, hemp]
  · rw [hl]
    by_cases hemp : l = []
    · subst hemp
      exact ⟨[], rfl⟩
    · refine ⟨l, ?_⟩
      rw [show pyOr (.vList l) (.vList []) = .vList l from by
        simp [pyOr, truthy, hemp]]
  · rw [hn]
    exact ⟨[], rfl⟩

/-- Witness for C4 at a concrete input: a document storing `tags` as the
string `"a, b"` normalizes to a list-typed `tags`. -/
theorem c4_normalize_tags_is_list_witness :
    ∃ l, List.lookup "tags"
        (_normalize_product [("tags", PyVal.vStr "a, b")]) =
      some (.vList l) :=
  c4_normalize_tags_is_list [("tags", PyVal.vStr "a, b")] rfl
    (Or.inl ⟨"a, b", rfl⟩)

/-- A scalar in the sense of C5: not a list and not a dict. -/
def PyScalar (v : PyVal) : Prop :=
  (∀ xs, v ≠ .vList xs) ∧ (∀ kvs, v ≠ .vDict kvs)

/-- C5 as stated is false: the non-empty document whose stored `tags` is
the scalar `5` normalizes to a `tags` field that is still the integer
`5`, not a (deduplicated) list. -/
theorem c5_counterexample :
    PyScalar (dget [("tags", PyVal.vInt 5), ("name", PyVal.vStr "x")] "tags") ∧
    ¬ ∃ l, List.lookup "tags"
        (_normalize_product [("tags", PyVal.vInt 5), ("name", PyVal.vStr "x")]) =
          some (.vList l) ∧ l.Nodup := by
  refine ⟨⟨fun xs h => by simp [dget] at h, fun kvs h => by simp [dget] at h⟩, ?_⟩
  rintro ⟨l, hl, -⟩
  rw [show List.lookup "tags"
      (_normalize_product [("tags", PyVal.vInt 5), ("name", PyVal.vStr "x")]) =
      some (PyVal.vInt 5) from rfl] at hl
  simp at hl

/-- C5 amended: for every non-empty product document whose stored `tags`
field is a string or a falsy scalar, normalization coerces that field
into a deduplicated list (a truthy non-string scalar such as `5` is
passed through unchanged, which is what the counterexample exhibits). -/
theorem c5_amended_tags_dedup (doc : Doc) (hne : doc.isEmpty = false)
    (h : (∃ s, dget doc "tags" = .vStr s) ∨
      (PyScalar (dget doc "tags") ∧ truthy (dget doc "tags") = false)) :
    ∃ l, List.lookup "tags" (_normalize_product doc) = some (.vList l) ∧
      l.Nodup := by
  rw [normalize_tags_lookup doc hne]
  rcases h with ⟨s, hs⟩ | ⟨-, hf⟩
  · rw [hs]
    by_cases hemp : s = ""
    · subst hemp
      exact ⟨[], rfl, List.nodup_nil⟩
    · refine ⟨(_parse_tags s).map .vStr, ?_, ?_⟩
      · simp [pyOr, truthy, hemp]
      · refine List.Nodup.map (fun a b hab => by injection hab) ?_
        unfold _parse_tags
        split
        · exact List.nodup_nil
        · exact List.nodup_dedup _
  · rw [show pyOr (dget doc "tags") (.vList []) = .vList [] from by
      simp [pyOr, hf]]
    exact ⟨[], rfl, List.nodup_nil⟩

/-- Witness for the amended C5 at a concrete input: the string
`"a, a, b"` normalizes to a duplicate-free list. -/
theorem c5_amended_tags_dedup_witness :
    ∃ l, List.lookup "tags"
        (_normalize_product [("tags", PyVal.vStr "a, a, b")]) =
      some (.vList l) ∧ l.Nodup :=
  c5_amended_tags_dedup [("tags", PyVal.vStr "a, a, b")] rfl
    (Or.inl ⟨"a, a, b", rfl⟩)

/-- C2: whenever the stored session document's `expires_at` is strictly
earlier than the current time, `get_session` reports the session absent
and deletes exactly that document from the store. -/
theorem c2_get_session_expired (st : Store) (sid : String) (now t : Int)
    (d : Doc) (hf : findOne st "_id" (.vStr sid) = some d)
    (he : dget d "expires_at" = .vTime t) (hlt : t < now) :
    get_session st sid now = .ok (none, deleteOne st "_id" (.vStr sid)) ∧
    (deleteOne st "_id" (.vStr sid)).length + 1 = st.length := by
  have hf' : st.find? (fun u => docMatches u "_id" (.vStr sid)) = some d := hf
  constructor
  · unfold get_session
    rw [hf]
    simp [he, truthy, hlt]
  · show (st.eraseP fun u => docMatches u "_id" (.vStr sid)).length + 1 =
      st.length
    have hpa := List.find?_some hf'
    exact List.length_eraseP_add_one (List.mem_of_find?_eq_some hf') hpa

/-- Witness for C2 at a concrete input: a session that expired at time 0
looked up at time 1 is reported absent and removed. -/
theorem c2_get_session_expired_witness :
    get_session [[("_id", PyVal.vStr "s1"), ("expires_at", PyVal.vTime 0)]]
        "s1" 1 =
      .ok (none, deleteOne [[("_id", PyVal.vStr "s1"),
        ("expires_at", PyVal.vTime 0)]] "_id" (.vStr "s1")) ∧
    (deleteOne [[("_id", PyVal.vStr "s1"), ("expires_at", PyVal.vTime 0)]]
        "_id" (.vStr "s1")).length + 1 = 1 :=
  c2_get_session_expired _ "s1" 1 0
    [("_id", PyVal.vStr "s1"), ("expires_at", PyVal.vTime 0)] (by decide)
    (by decide) (by norm_num)

/-- C3: for every logout request carrying a (truthy) `session_id`
cookie, the handler deletes the cookie and calls `delete_session`, and
its behaviour does not depend on the outcome of the best-effort
token-revocation request at all. -/
theorem c3_logout_always_deletes (st : Store) (sid : String) (now : Int)
    (rev : RevokeOutcome) (hs : sid ≠ "") :
    (google_logout st (some sid) now rev).cookieDeleted = true ∧
    (google_logout st (some sid) now rev).deleteSessionCalled = true ∧
    ∀ rev' : RevokeOutcome,
      google_logout st (some sid) now rev =
        google_logout st (some sid) now rev' := by
  refine ⟨?_, ?_, fun rev' => rfl⟩ <;> simp [google_logout, hs]

/-- Witness for C3 at a concrete input: logging out with cookie `"s1"`
over an empty store while revocation raises. -/
theorem c3_logout_always_deletes_witness :
    (google_logout [] (some "s1") 0 .exn).cookieDeleted = true ∧
    (google_logout [] (some "s1") 0 .exn).deleteSessionCalled = true ∧
    ∀ rev' : RevokeOutcome,
      google_logout [] (some "s1") 0 .exn =
        google_logout [] (some "s1") 0 rev' :=
  c3_logout_always_deletes [] "s1" 0 .exn (by decide)

theorem reEscapeSpecial_not_alphanum :
    ∀ c ∈ reEscapeSpecial, c.isAlphanum = false := by decide

theorem regexMetaOutside_subset_special :
    ∀ c ∈ regexMetaOutside, c ∈ reEscapeSpecial := by decide

/-- The escaped form of any string parses as a plain sequence of
literal-character matchers: escaping neutralizes every metacharacter. -/
theorem parseRegex_reEscape_data (cs : List Char) :
    parseRegex (reEscape ⟨cs⟩).data = some (cs.map RegexTok.lit) := by
  induction cs with
  | nil => rfl
  | cons c rest ih =>
      have hdata : (reEscape ⟨c :: rest⟩).data =
          (if c ∈ reEscapeSpecial then ['\\', c] else [c]) ++
            (reEscape ⟨rest⟩).data := by
        simp [reEscape]
      rw [hdata]
      by_cases hc : c ∈ reEscapeSpecial
      · rw [if_pos hc]
        have hna : c.isAlphanum = false := reEscapeSpecial_not_alphanum c hc
        simp [parseRegex, hna, ih]
      · rw [if_neg hc]
        have hbs : ¬ c = '\\' := fun h => hc (h ▸ by decide)
        have hdot : ¬ c = '.' := fun h => hc (h ▸ by decide)
        have hmeta : c ∉ regexMetaOutside :=
          fun h => hc (regexMetaOutside_subset_special c h)
        rw [parseRegex.eq_def]
        simp [hbs, hdot, hmeta, ih]

/-- Matching a window against pure literal tokens under the `i` flag is
exactly case-insensitive character-by-character equality. -/
theorem windowMatch_lit_iff (cs : List Char) :
    ∀ w : List Char, windowMatch true (cs.map RegexTok.lit) w = true ↔
      w.map Char.toLower = cs.map Char.toLower := by
  induction cs with
  | nil => intro w; cases w <;> simp [windowMatch]
  | cons c rest ih =>
      intro w
      cases w with
      | nil => simp [windowMatch]
      | cons x xs =>
          rw [show windowMatch true ((c :: rest).map RegexTok.lit) (x :: xs) =
            (tokMatches true (.lit c) x &&
              windowMatch true (rest.map RegexTok.lit) xs) from rfl]
          rw [Bool.and_eq_true, ih xs]
          simp [tokMatches]

/-- C10: `_build_search_query` escapes all regex metacharacters of the
query (à la `re.escape`), so the non-empty case builds a case-insensitive
`$or` regex filter over name / description / tags / ia_tags.tags whose
pattern parses as pure literals and therefore matches subjects exactly
when the query occurs in them as a (case-insensitive) literal substring;
an empty query yields the match-all filter. -/
theorem c10_search_query_literal (q : String) :
    (_build_search_query "" = .matchAll) ∧
    (q ≠ "" → _build_search_query q =
      .orRegex ["name", "description", "tags", "ia_tags.tags"]
        (reEscape q) "i") ∧
    parseRegex (reEscape q).data = some (q.data.map RegexTok.lit) ∧
    (∀ s : List Char, regexSearch true (q.data.map RegexTok.lit) s ↔
      ∃ w, w <:+: s ∧ w.map Char.toLower = q.data.map Char.toLower) := by
  refine ⟨rfl, fun h => by simp [_build_search_query, h], ?_, ?_⟩
  · obtain ⟨cs⟩ := q
    exact parseRegex_reEscape_data cs
  · intro s
    constructor
    · rintro ⟨w, hw, hm⟩
      exact ⟨w, hw, (windowMatch_lit_iff q.data w).mp hm⟩
    · rintro ⟨w, hw, hm⟩
      exact ⟨w, hw, (windowMatch_lit_iff q.data w).mpr hm⟩

/-- Witness for C10 at a concrete input: the query `"a(b"`, whose `(`
would otherwise open a regex group, is escaped and parses as the three
literals `a`, `(`, `b`. -/
theorem c10_search_query_literal_witness :
    _build_search_query "a(b" =
      .orRegex ["name", "description", "tags", "ia_tags.tags"]
        (reEscape "a(b") "i" ∧
    parseRegex (reEscape "a(b").data =
      some [RegexTok.lit 'a', RegexTok.lit '(', RegexTok.lit 'b'] :=
  ⟨(c10_search_query_literal "a(b").2.1 (by decide),
   (c10_search_query_literal "a(b").2.2.1⟩

/-- C8: on every successful OAuth callback, the session cookie set on
the response is HTTP-only, `SameSite=Lax`, has a 2-hour (7200 s) max
age, and is marked secure whenever the request scheme is HTTPS. -/
theorem c8_session_cookie_attributes (code cookieSecureEnv : Option String)
    (scheme : String) (tokenR userR : HttpResult)
    (userStore sessionStore : Store) (now : Int) (newUserId : PyVal)
    (sid : String) (r : CallbackResponse)
    (h : (google_callback code cookieSecureEnv scheme tokenR userR
      userStore sessionStore now newUserId sid).result = .ok r) :
    r.cookie.key = "session_id" ∧ r.cookie.httponly = true ∧
    r.cookie.samesite = "lax" ∧ r.cookie.maxAge = 3600 * 2 ∧
    (scheme = "https" → r.cookie.secure = true) := by
  unfold google_callback at h
  repeat' split at h
  all_goals simp_all
  all_goals
    subst h
    refine ⟨rfl, rfl, rfl, rfl, fun hs => ?_⟩
    subst hs
    simp

/-- Witness for C8 at a concrete successful HTTPS callback. -/
theorem c8_session_cookie_attributes_witness :
    (google_callback (some "c") none "https"
        (.resp 200 [("access_token", PyVal.vStr "tok")])
        (.resp 200 [("sub", PyVal.vStr "g1")]) [] [] 0 (PyVal.vStr "u1")
        "s1").result =
      .ok ⟨"/login/success",
        ⟨"session_id", "s1", true, "lax", true, 7200⟩⟩ ∧
    (⟨"/login/success", ⟨"session_id", "s1", true, "lax", true, 7200⟩⟩ :
        CallbackResponse).cookie.httponly = true ∧
    (⟨"/login/success", ⟨"session_id", "s1", true, "lax", true, 7200⟩⟩ :
        CallbackResponse).cookie.secure = true :=
  ⟨rfl,
   (c8_session_cookie_attributes (some "c") none "https"
      (.resp 200 [("access_token", PyVal.vStr "tok")])
      (.resp 200 [("sub", PyVal.vStr "g1")]) [] [] 0 (PyVal.vStr "u1")
      "s1" _ rfl).2.1,
   (c8_session_cookie_attributes (some "c") none "https"
      (.resp 200 [("access_token", PyVal.vStr "tok")])
      (.resp 200 [("sub", PyVal.vStr "g1")]) [] [] 0 (PyVal.vStr "u1")
      "s1" _ rfl).2.2.2.2 rfl⟩

/-- A provider request failed: a transport error, or a response whose
status is not 2xx. -/
def httpFail : HttpResult → Prop
  | .netErr => True
  | .resp s _ => ¬ (200 ≤ s ∧ s ≤ 299)

/-- C6: whenever the token-endpoint or userinfo-endpoint interaction
fails (non-2xx status or network failure), the callback surfaces an
HTTP 5xx gateway error (502 for transport failures, 500 otherwise),
never reaches user persistence or session creation, and requests each
provider endpoint at most once. -/
theorem c6_callback_provider_failure (c : String) (hc : ¬ c = "")
    (cookieSecureEnv : Option String) (scheme : String)
    (tokenR userR : HttpResult) (userStore sessionStore : Store)
    (now : Int) (newUserId : PyVal) (sid : String)
    (hfail : httpFail tokenR ∨ httpFail userR) :
    (∃ e, (google_callback (some c) cookieSecureEnv scheme tokenR userR
        userStore sessionStore now newUserId sid).result = .error e ∧
      500 ≤ e.status ∧ e.status ≤ 502) ∧
    (google_callback (some c) cookieSecureEnv scheme tokenR userR
      userStore sessionStore now newUserId sid).persistUserCalled = false ∧
    (google_callback (some c) cookieSecureEnv scheme tokenR userR
      userStore sessionStore now newUserId sid).sessionCreated = false ∧
    (google_callback (some c) cookieSecureEnv scheme tokenR userR
      userStore sessionStore now newUserId sid).tokenCalls ≤ 1 ∧
    (google_callback (some c) cookieSecureEnv scheme tokenR userR
      userStore sessionStore now newUserId sid).userinfoCalls ≤ 1 := by
  rcases tokenR with ⟨ts, tb⟩ | _
  · by_cases hts : ts = 200
    · subst hts
      have hfu : httpFail userR := by
        rcases hfail with hft | hfu
        · exact absurd ⟨by norm_num, by norm_num⟩ hft
        · exact hfu
      by_cases hat : truthy (dget tb "access_token") = true
      · rcases userR with ⟨us, ub⟩ | _
        · have hus : ¬ us = 200 := fun h => hfu ⟨by omega, by omega⟩
          refine ⟨⟨⟨500, "Failed to fetch user info"⟩, ?_, by norm_num,
            by norm_num⟩, ?_, ?_, ?_, ?_⟩ <;>
            simp [google_callback, hc, hat, hus]
        · refine ⟨⟨⟨502, "HTTP error while contacting Google APIs"⟩, ?_,
            by norm_num, by norm_num⟩, ?_, ?_, ?_, ?_⟩ <;>
            simp [google_callback, hc, hat]
      · refine ⟨⟨⟨500, "No access token returned"⟩, ?_, by norm_num,
          by norm_num⟩, ?_, ?_, ?_, ?_⟩ <;>
          simp [google_callback, hc, hat]
    · refine ⟨⟨⟨500, "Failed to fetch token from Google"⟩, ?_, by norm_num,
        by norm_num⟩, ?_, ?_, ?_, ?_⟩ <;>
        simp [google_callback, hc, hts]
  · refine ⟨⟨⟨502, "HTTP error while contacting Google APIs"⟩, ?_,
      by norm_num, by norm_num⟩, ?_, ?_, ?_, ?_⟩ <;>
      simp [google_callback, hc]

/-- Witness for C6 at a concrete input: a transport failure at the
token endpoint surfaces a 5xx error without touching the stores. -/
theorem c6_callback_provider_failure_witness :
    (∃ e, (google_callback (some "c") none "http" .netErr
        (.resp 200 []) [] [] 0 .vNone "s1").result = .error e ∧
      500 ≤ e.status ∧ e.status ≤ 502) ∧
    (google_callback (some "c") none "http" .netErr
      (.resp 200 []) [] [] 0 .vNone "s1").persistUserCalled = false ∧
    (google_callback (some "c") none "http" .netErr
      (.resp 200 []) [] [] 0 .vNone "s1").sessionCreated = false ∧
    (google_callback (some "c") none "http" .netErr
      (.resp 200 []) [] [] 0 .vNone "s1").tokenCalls ≤ 1 ∧
    (google_callback (some "c") none "http" .netErr
      (.resp 200 []) [] [] 0 .vNone "s1").userinfoCalls ≤ 1 :=
  c6_callback_provider_failure "c" (by decide) none "http" .netErr
    (.resp 200 []) [] [] 0 .vNone "s1" (Or.inl trivial)

/-- Every key of `identity_data` is an identity-field key. -/
theorem identityData_keys (info : Doc) (gid : String) :
    ∀ kv ∈ identityData info gid, kv.1 ∈ identityUpdateKeys := by
  intro kv hm
  have hbase := List.mem_of_mem_filter hm
  simp only [List.mem_cons, List.not_mem_nil, or_false] at hbase
  rcases hbase with rfl | rfl | rfl | rfl | rfl | rfl | rfl | rfl <;>
    simp [identityUpdateKeys]

/-- C1: on every login for which a user with the given google_id already
exists, `get_or_create_user_from_info` leaves the stored `role` of every
user unchanged — whatever the identity provider put in `user_info`,
including a `role` key — and writes nothing outside identity fields and
login timestamps. -/
theorem c1_role_preserved_on_login (st : Store) (info : Doc) (now : Int)
    (nid : PyVal) (d : Doc) (ret : Option Doc) (st' : Store)
    (hfind : findOne st "google_id"
      (.vStr (pyStr (pyOr (dget info "sub") (dget info "id")))) = some d)
    (hok : get_or_create_user_from_info st info now nid = .ok (ret, st')) :
    st'.length = st.length ∧
    (∀ i : Nat, (st'[i]?).map (fun u => u.lookup "role") =
      (st[i]?).map (fun u => u.lookup "role")) ∧
    (∀ key : String, key ∉ identityUpdateKeys →
      ∀ i : Nat, (st'[i]?).map (fun u => u.lookup key) =
        (st[i]?).map (fun u => u.lookup key)) := by
  simp only [get_or_create_user_from_info] at hok
  by_cases hgid : truthy (pyOr (dget info "sub") (dget info "id")) = true
  · rw [if_pos hgid] at hok
    rw [hfind] at hok
    dsimp only [] at hok
    cases hlid : d.lookup "_id" with
    | none => rw [hlid] at hok; simp at hok
    | some idv =>
        rw [hlid] at hok
        simp only [Except.ok.injEq, Prod.mk.injEq] at hok
        obtain ⟨-, hst⟩ := hok
        subst hst
        set upd := identityData info
          (pyStr (pyOr (dget info "sub") (dget info "id"))) ++
          [("updated_at", PyVal.vTime now),
           ("last_login_at", PyVal.vTime now)] with hupd
        have hkeys : ∀ kv ∈ upd, kv.1 ∈ identityUpdateKeys := by
          intro kv hm
          rcases List.mem_append.mp hm with h | h
          · exact identityData_keys _ _ kv h
          · simp only [List.mem_cons, List.not_mem_nil, or_false] at h
            rcases h with rfl | rfl <;> simp [identityUpdateKeys]
        refine ⟨updateOne_length _ _ _ _, ?_, ?_⟩
        · intro i
          exact updateOne_lookup_frame "role" upd
            (fun kv hm h => (by decide : "role" ∉ identityUpdateKeys)
              (h ▸ hkeys kv hm)) st "_id" idv i
        · intro key hkey i
          exact updateOne_lookup_frame key upd
            (fun kv hm h => hkey (h ▸ hkeys kv hm)) st "_id" idv i
  · rw [if_neg hgid] at hok
    simp at hok

/-- Witness for C1 at a concrete input: an existing admin stays admin
although the provider sent `role: user`. -/
theorem c1_role_preserved_on_login_witness :
    get_or_create_user_from_info
        [[("_id", PyVal.vStr "u1"), ("google_id", PyVal.vStr "g1"),
          ("role", PyVal.vStr "admin")]]
        [("sub", PyVal.vStr "g1"), ("role", PyVal.vStr "user"),
         ("email", PyVal.vStr "e@x")] 5 (.vStr "nid") =
      .ok (some [("google_id", PyVal.vStr "g1"),
          ("role", PyVal.vStr "admin"), ("email", PyVal.vStr "e@x"),
          ("email_verified", PyVal.vBool false),
          ("updated_at", PyVal.vTime 5), ("last_login_at", PyVal.vTime 5),
          ("id", PyVal.vStr "u1")],
        [[("_id", PyVal.vStr "u1"), ("google_id", PyVal.vStr "g1"),
          ("role", PyVal.vStr "admin"), ("email", PyVal.vStr "e@x"),
          ("email_verified", PyVal.vBool false),
          ("updated_at", PyVal.vTime 5),
          ("last_login_at", PyVal.vTime 5)]]) ∧
    (([[("_id", PyVal.vStr "u1"), ("google_id", PyVal.vStr "g1"),
        ("role", PyVal.vStr "admin"), ("email", PyVal.vStr "e@x"),
        ("email_verified", PyVal.vBool false),
        ("updated_at", PyVal.vTime 5),
        ("last_login_at", PyVal.vTime 5)]] : Store)[0]?).map
        (fun u => u.lookup "role") =
      (([[("_id", PyVal.vStr "u1"), ("google_id", PyVal.vStr "g1"),
          ("role", PyVal.vStr "admin")]] : Store)[0]?).map
        (fun u => u.lookup "role") :=
  ⟨rfl,
   (c1_role_preserved_on_login
      [[("_id", PyVal.vStr "u1"), ("google_id", PyVal.vStr "g1"),
        ("role", PyVal.vStr "admin")]]
      [("sub", PyVal.vStr "g1"), ("role", PyVal.vStr "user"),
       ("email", PyVal.vStr "e@x")] 5 (.vStr "nid")
      [("_id", PyVal.vStr "u1"), ("google_id", PyVal.vStr "g1"),
       ("role", PyVal.vStr "admin")]
      (some [("google_id", PyVal.vStr "g1"),
        ("role", PyVal.vStr "admin"), ("email", PyVal.vStr "e@x"),
        ("email_verified", PyVal.vBool false),
        ("updated_at", PyVal.vTime 5), ("last_login_at", PyVal.vTime 5),
        ("id", PyVal.vStr "u1")])
      [[("_id", PyVal.vStr "u1"), ("google_id", PyVal.vStr "g1"),
        ("role", PyVal.vStr "admin"), ("email", PyVal.vStr "e@x"),
        ("email_verified", PyVal.vBool false),
        ("updated_at", PyVal.vTime 5), ("last_login_at", PyVal.vTime 5)]]
      rfl rfl).2.1 0⟩

/-- The users-store component of `update_user_by_dbid` is an
`update_one` with the key the ObjectId check selects. -/
theorem update_user_by_dbid_store (st : Store) (uid : PyVal) (us : Doc) :
    (update_user_by_dbid st uid us).2 =
      updateOne st
        (match uid with
          | .vStr s => if isObjectIdStr s then "_id" else "id"
          | _ => "id") uid us := by
  unfold update_user_by_dbid
  dsimp only []
  split <;> rfl

/-- C9: every `PATCH /users/me` run writes at most `name`, `picture` and
`updated_at` — each written entry is either the server-side timestamp or
a non-null `name`/`picture` entry of the JSON payload (so null-valued
payload keys are ignored) — and every other field of every stored user
document is unchanged. -/
theorem c9_update_me_frame (st : Store) (cur payload : Option Doc)
    (now : Int) :
    (update_me st cur payload now).userStore.length = st.length ∧
    (∀ key : String, key ∉ (["name", "picture", "updated_at"] : List String) →
      ∀ i : Nat,
        (((update_me st cur payload now).userStore)[i]?).map
          (fun u => u.lookup key) = (st[i]?).map (fun u => u.lookup key)) ∧
    (∀ u, (update_me st cur payload now).writtenUpdates = some u →
      ∀ kv ∈ u, kv = ("updated_at", .vTime now) ∨
        (∃ p, payload = some p ∧ kv ∈ p ∧
          (kv.1 = "name" ∨ kv.1 = "picture") ∧ kv.2 ≠ .vNone)) := by
  unfold update_me
  rcases cur with _ | c
  · exact ⟨rfl, fun key hk i => rfl, fun u hu => by simp at hu⟩
  rcases payload with _ | p
  · exact ⟨rfl, fun key hk i => rfl, fun u hu => by simp at hu⟩
  dsimp only []
  by_cases hemp : (p.filter
      (fun kv => (kv.1 = "name" || kv.1 = "picture") &&
        kv.2 ≠ PyVal.vNone)).isEmpty = true
  · rw [if_pos hemp]
    exact ⟨rfl, fun key hk i => rfl, fun u hu => by simp at hu⟩
  · rw [if_neg hemp]
    by_cases huid : (!truthy (pyOr (dget c "id") (dget c "_id"))) = true
    · rw [if_pos huid]
      exact ⟨rfl, fun key hk i => rfl, fun u hu => by simp at hu⟩
    · rw [if_neg huid]
      set updates := assocSet (p.filter
        (fun kv => (kv.1 = "name" || kv.1 = "picture") &&
          kv.2 ≠ PyVal.vNone))
        "updated_at" (PyVal.vTime now) with hupdates
      have hmem : ∀ kv ∈ updates, kv = ("updated_at", PyVal.vTime now) ∨
          (kv ∈ p ∧ (kv.1 = "name" ∨ kv.1 = "picture") ∧
            kv.2 ≠ PyVal.vNone) := by
        intro kv hm
        rcases mem_assocSet _ _ _ _ hm with h | h
        · exact Or.inl h
        · right
          have h1 := List.mem_of_mem_filter h
          have h2 := List.of_mem_filter h
          simp only [Bool.and_eq_true, Bool.or_eq_true, decide_eq_true_eq,
            ne_eq, decide_not, Bool.not_eq_true'] at h2
          refine ⟨h1, h2.1, by simpa using h2.2⟩
      have hkeys : ∀ key : String,
          key ∉ (["name", "picture", "updated_at"] : List String) →
          ∀ kv ∈ updates, kv.1 ≠ key := by
        intro key hk kv hm h
        rcases hmem kv hm with h2 | h2
        · rw [h2] at h
          exact hk (by simp [← h])
        · rcases h2.2.1 with h1 | h1 <;> rw [← h] at hk <;>
            exact hk (by simp [h1])
      cases hr1 : (update_user_by_dbid st (pyOr (dget c "id") (dget c "_id"))
          updates).1 with
      | none =>
          refine ⟨?_, ?_, ?_⟩
          · show (update_user_by_dbid st (pyOr (dget c "id") (dget c "_id"))
              updates).2.length = st.length
            rw [update_user_by_dbid_store, updateOne_length]
          · intro key hk i
            show ((update_user_by_dbid st (pyOr (dget c "id") (dget c "_id"))
              updates).2[i]?).map (fun u => u.lookup key) =
              (st[i]?).map (fun u => u.lookup key)
            rw [update_user_by_dbid_store]
            exact updateOne_lookup_frame key updates (hkeys key hk) st _ _ i
          · intro u hu
            have hu2 : some updates = some u := hu
            obtain rfl := Option.some.inj hu2
            intro kv hm
            rcases hmem kv hm with h2 | h2
            · exact Or.inl h2
            · exact Or.inr ⟨p, rfl, h2.1, h2.2.1, h2.2.2⟩
      | some u1 =>
          refine ⟨?_, ?_, ?_⟩
          · show (update_user_by_dbid st (pyOr (dget c "id") (dget c "_id"))
              updates).2.length = st.length
            rw [update_user_by_dbid_store, updateOne_length]
          · intro key hk i
            show ((update_user_by_dbid st (pyOr (dget c "id") (dget c "_id"))
              updates).2[i]?).map (fun u => u.lookup key) =
              (st[i]?).map (fun u => u.lookup key)
            rw [update_user_by_dbid_store]
            exact updateOne_lookup_frame key updates (hkeys key hk) st _ _ i
          · intro u hu
            have hu2 : some updates = some u := hu
            obtain rfl := Option.some.inj hu2
            intro kv hm
            rcases hmem kv hm with h2 | h2
            · exact Or.inl h2
            · exact Or.inr ⟨p, rfl, h2.1, h2.2.1, h2.2.2⟩

/-- Witness for C9 at a concrete input: a payload trying to set `role`
and a null `picture` results in a write of `name` and `updated_at` only,
and the stored `role` survives. -/
theorem c9_update_me_frame_witness :
    (update_me
        [[("_id", PyVal.vStr "u1"), ("role", PyVal.vStr "admin"),
          ("name", PyVal.vStr "Old")]]
        (some [("id", PyVal.vStr "u1")])
        (some [("name", PyVal.vStr "New"), ("role", PyVal.vStr "root"),
          ("picture", PyVal.vNone)]) 9).writtenUpdates =
      some [("name", PyVal.vStr "New"), ("updated_at", PyVal.vTime 9)] ∧
    (((update_me
        [[("_id", PyVal.vStr "u1"), ("role", PyVal.vStr "admin"),
          ("name", PyVal.vStr "Old")]]
        (some [("id", PyVal.vStr "u1")])
        (some [("name", PyVal.vStr "New"), ("role", PyVal.vStr "root"),
          ("picture", PyVal.vNone)]) 9).userStore)[0]?).map
        (fun u => u.lookup "role") =
      (([[("_id", PyVal.vStr "u1"), ("role", PyVal.vStr "admin"),
        ("name", PyVal.vStr "Old")]] : Store)[0]?).map
        (fun u => u.lookup "role") :=
  ⟨rfl,
   (c9_update_me_frame
      [[("_id", PyVal.vStr "u1"), ("role", PyVal.vStr "admin"),
        ("name", PyVal.vStr "Old")]]
      (some [("id", PyVal.vStr "u1")])
      (some [("name", PyVal.vStr "New"), ("role", PyVal.vStr "root"),
        ("picture", PyVal.vNone)]) 9).2.1 "role" (by decide) 0⟩

end ECom
